import Mathlib

/-!
Shallow embedding of the yahoo/privilege-cmd-controller sources
(package `privexecutor` plus `constants`), covering the annotation
protocol helpers (`helper.go`), the privileged-pod lifecycle
(`privilege_pod.go`), the remote command executor
(`remote_command.go`, `execute_command.go`), the orchestration state
machine (`execute.go`: `Process`, `handleActiveStatus`,
`handleDoneStatus`) and the event dispatcher callback
(`privilege_pod.go`: `handleUpdate`).

Modelling conventions:
- Go maps (`map[string]string`) are association lists
  `List (String × String)`; a `nil` Go map is `Option.none`.  Lookup of
  a missing key returns the zero value `""` exactly as in Go.  Go map
  iteration order is not observable in any embedded operation that
  ranges over a map with more than one relevant key.
- The Kubernetes cluster reachable through the injected client is a
  list of pods; `Get`/`Create`/`Delete`/`Patch` act on it by
  namespace+name, reproducing the fake/real client behaviour used by
  the sources (patching or deleting an absent pod fails with NotFound,
  creating a present pod fails with AlreadyExists).
- Remote command execution (`execCommandOnPod`) reaches outside the
  process; its transport outcome is an oracle parameter
  (`ExecOracle`).  Everything else is computed.
- A Go runtime panic (out-of-range string slice) is modelled as an
  explicit `panicked` result constructor, never as a default value.
- Only pod fields read or written by the embedded code are modelled
  (name, namespace, annotations, spec.nodeName, container statuses,
  status.phase); `v1.Pod` nesting is flattened.
-/

/-- Annotation key `privileged-command-status` (constants.go). -/
def AnnotationExecuteStatus : String := "privileged-command-status"

/-- Annotation key `privileged-command-container` (constants.go). -/
def AnnotationExecuteContainer : String := "privileged-command-container"

/-- Annotation key `privileged-command-action` (constants.go). -/
def AnnotationExecuteAction : String := "privileged-command-action"

/-- Status value `active` (constants.go). -/
def StatusActive : String := "active"

/-- Status value `in-progress` (constants.go). -/
def StatusInProgress : String := "in-progress"

/-- Status value `done` (constants.go). -/
def StatusDone : String := "done"

/-- Status value `error` (constants.go). -/
def StatusError : String := "error"

/-- Lookup in a Go string map: first entry with the key, zero value
`""` when absent (Go `m[k]`). -/
def goLookup : List (String × String) → String → String
  | [], _ => ""
  | p :: rest, k => if p.1 = k then p.2 else goLookup rest k

/-- Key-presence test on a Go string map representation. -/
def hasKeyList : List (String × String) → String → Bool
  | [], _ => false
  | p :: rest, k => if p.1 = k then true else hasKeyList rest k

/-- Go map assignment `m[k] = v`: replace the value of an existing key,
otherwise add the entry. -/
def goInsertList (m : List (String × String)) (k v : String) : List (String × String) :=
  if hasKeyList m k then m.map (fun p => if p.1 = k then (k, v) else p)
  else m ++ [(k, v)]

/-- Go map deletion `delete(m, k)`. -/
def goDeleteList (m : List (String × String)) (k : String) : List (String × String) :=
  m.filter (fun p => p.1 ≠ k)

/-- A possibly-nil Go annotation map, as held in `v1.Pod.Annotations`. -/
abbrev AnnMap := Option (List (String × String))

/-- Go lookup through a possibly-nil map (nil lookups yield `""`). -/
def goGet (ann : AnnMap) (k : String) : String :=
  match ann with
  | none => ""
  | some m => goLookup m k

/-- Key presence through a possibly-nil map. -/
def hasKey (ann : AnnMap) (k : String) : Bool :=
  match ann with
  | none => false
  | some m => hasKeyList m k

/-- One container status entry (`v1.ContainerStatus`): the container
name and the runtime-prefixed container identifier. -/
structure ContainerStatus where
  name : String
  containerID : String
deriving Repr, DecidableEq

/-- The modelled slice of a `v1.Pod`: metadata name/namespace and
annotations, `Spec.NodeName`, the regular and init container status
lists and `Status.Phase`. -/
structure Pod where
  name : String
  podNamespace : String
  annotations : AnnMap
  nodeName : String
  containerStatuses : List ContainerStatus
  initContainerStatuses : List ContainerStatus
  phase : String
deriving Repr, DecidableEq

/-- The cluster state behind the injected Kubernetes client. -/
abbrev Cluster := List Pod

/-- `client.CoreV1().Pods(ns).Get(name)`: the stored pod, if any. -/
def clusterGet (cluster : Cluster) (podNamespace name : String) : Option Pod :=
  cluster.find? (fun p => p.podNamespace = podNamespace ∧ p.name = name)

/-- Per-request identity (`requestSpec` in privilege_pod.go): the
derived privileged-pod name and the correlation id. -/
structure requestSpec where
  privPodName : String
  reqID : String
deriving Repr, DecidableEq

/-- The process-wide flag values (`cmdArgs` in privilege_pod.go). -/
structure cmdArgs where
  privPodTimeout : Nat
  podNamespace : String
  image : String
  serviceaccount : String
deriving Repr, DecidableEq

/-- Result of one annotation-protocol operation: the error (if any),
the cluster after any submitted patch, and the pod object after the
in-place mutations the Go code performs through its pointer. -/
structure AnnotOpResult where
  err : Option String
  cluster : Cluster
  pod : Pod
deriving Repr, DecidableEq

/-- Cluster-side effect of `applyPatchForAnnotation` (helper.go): the
strategic merge patch between the pod before and after the in-memory
annotation edit sets the added/updated keys and removes the deleted
keys on the stored pod.  Patching a pod the cluster does not hold
fails with the client NotFound error. -/
def clusterPatchAnnotations (cluster : Cluster) (podNamespace name : String)
    (sets : List (String × String)) (removes : List String) : Except String Cluster :=
  if (clusterGet cluster podNamespace name).isSome then
    .ok (cluster.map (fun p =>
      if p.podNamespace = podNamespace ∧ p.name = name then
        let ann := sets.foldl (fun m kv => goInsertList m kv.1 kv.2) (p.annotations.getD [])
        { p with annotations := some (removes.foldl goDeleteList ann) }
      else p))
  else .error ("pods \"" ++ name ++ "\" not found")

/-- `applyPatchForAnnotation` (helper.go): submit the computed diff as
one patch; a failed submission is wrapped with the pod name. -/
def applyPatchForAnnotationOnPod (cluster : Cluster) (podNamespace : String)
    (sets : List (String × String)) (removes : List String)
    (newPodResource : Pod) : Except String Cluster :=
  match clusterPatchAnnotations cluster podNamespace newPodResource.name sets removes with
  | .error e => .error ("failed to patch annotation to pod " ++ newPodResource.name ++ ": " ++ e)
  | .ok c => .ok c

/-- `applyAnnotationUpdateOnPod` (helper.go): replace a nil annotation
map by an empty one, add or update every requested key on the pod
object, then submit the diff as one patch.  The pod-object mutation
precedes the patch and survives a patch failure. -/
def applyAnnotationUpdateOnPod (cluster : Cluster) (podNamespace : String)
    (addOrUpdateAnnotations : List (String × String)) (newPodResource : Pod) : AnnotOpResult :=
  let ann1 := newPodResource.annotations.getD []
  let ann2 := addOrUpdateAnnotations.foldl (fun m kv => goInsertList m kv.1 kv.2) ann1
  let pod' := { newPodResource with annotations := some ann2 }
  match applyPatchForAnnotationOnPod cluster podNamespace addOrUpdateAnnotations [] pod' with
  | .error e => { err := some e, cluster := cluster, pod := pod' }
  | .ok c => { err := none, cluster := c, pod := pod' }

/-- The deletion loop of `applyAnnotationDeletionOnPod` (helper.go):
keys are deleted from the pod's map one by one; the first key whose
current value is the zero value `""` aborts with the
does-not-exist error, keeping the deletions already performed. -/
def applyAnnotationDeletionLoop : List String → AnnMap → Option String × AnnMap
  | [], ann => (none, ann)
  | k :: rest, ann =>
    if goGet ann k = "" then
      (some ("annotation " ++ k ++ " to be deleted does not exist"), ann)
    else applyAnnotationDeletionLoop rest (ann.map (fun m => goDeleteList m k))

/-- `applyAnnotationDeletionOnPod` (helper.go): run the deletion loop
on the pod object; only when every key was deleted is the diff
submitted as one patch. -/
def applyAnnotationDeletionOnPod (cluster : Cluster) (podNamespace : String)
    (deleteAnnotations : List String) (newPodResource : Pod) : AnnotOpResult :=
  let r := applyAnnotationDeletionLoop deleteAnnotations newPodResource.annotations
  let pod' := { newPodResource with annotations := r.2 }
  match r.1 with
  | some e => { err := some e, cluster := cluster, pod := pod' }
  | none =>
    match applyPatchForAnnotationOnPod cluster podNamespace [] deleteAnnotations pod' with
    | .error e => { err := some e, cluster := cluster, pod := pod' }
    | .ok c => { err := none, cluster := c, pod := pod' }

/-- `getNodeName` (helper.go). -/
def getNodeName (pod : Pod) : Except String String :=
  if pod.nodeName = "" then .error ("no node name detected for target pod: " ++ pod.name)
  else .ok pod.nodeName

/-- `updatePrivilegedCommandExecutorAnnotation` (execute.go): a
single-key upsert of the status annotation. -/
def updatePrivilegedCommandExecutorAnnotations (cluster : Cluster) (podNamespace : String)
    (newPodResource : Pod) (status : String) : AnnotOpResult :=
  applyAnnotationUpdateOnPod cluster podNamespace [(AnnotationExecuteStatus, status)] newPodResource

/-- `deletePrivilegedCommandExecutorAnnotation` (execute.go): deletion
of the three protocol keys. -/
def deletePrivilegedCommandExecutorAnnotations (cluster : Cluster) (podNamespace : String)
    (newPodResource : Pod) : AnnotOpResult :=
  applyAnnotationDeletionOnPod cluster podNamespace
    [AnnotationExecuteStatus, AnnotationExecuteContainer, AnnotationExecuteAction] newPodResource

/-- `privilegedPodSpec` (privilege_pod.go), restricted to the modelled
pod fields: the helper pod named after the request, pinned to the
target node, with an empty (not yet scheduled) phase.  The privileged
security context, image, host-PID flag and docker-socket mount it also
sets are not consumed by any embedded operation. -/
def privilegedPodSpec (podName nodeName podNamespace : String) : Pod :=
  { name := podName, podNamespace := podNamespace, annotations := none,
    nodeName := nodeName, containerStatuses := [], initContainerStatuses := [],
    phase := "" }

/-- `createPod` (privilege_pod.go): create the pod in its namespace;
an AlreadyExists client error is wrapped with pod name and node. -/
def createPod (cluster : Cluster) (pod : Pod) : Except String Cluster :=
  if (clusterGet cluster pod.podNamespace pod.name).isSome then
    .error ("failed to create pod " ++ pod.name ++ " on node " ++ pod.nodeName ++
      ": pods \"" ++ pod.name ++ "\" already exists")
  else .ok (cluster ++ [pod])

/-- `deletePod` (privilege_pod.go): foreground delete by name; a
NotFound client error is wrapped with the pod name. -/
def deletePod (cluster : Cluster) (podNamespace : String) (rs : requestSpec) :
    Option String × Cluster :=
  match clusterGet cluster podNamespace rs.privPodName with
  | none => (some ("failed to delete pod " ++ rs.privPodName ++ ": pods \"" ++
      rs.privPodName ++ "\" not found"), cluster)
  | some _ => (none,
      cluster.filter (fun p => ¬(p.podNamespace = podNamespace ∧ p.name = rs.privPodName)))

/-- Zero `v1.Pod` value, used only to model the ignored-error read in
the timeout branch of `createPrivilegedPod`; that read always finds
the pod created a moment earlier on every path exercised here. -/
def zeroPod : Pod :=
  { name := "", podNamespace := "", annotations := none, nodeName := "",
    containerStatuses := [], initContainerStatuses := [], phase := "" }

/-- `createPrivilegedPod` (privilege_pod.go): build and create the
privileged pod, then watch it until a watch event reports phase
Running; when the timeout elapses first, read the pod once more and
fail with its current phase.  The pod snapshots the watch delivers
before the timeout are the `watchEvents` oracle; an empty list means
the timeout fires first. -/
def createPrivilegedPod (cluster : Cluster) (podNamespace nodeName : String)
    (rs : requestSpec) (privPodTimeout : Nat) (watchEvents : List Pod) :
    Option String × Cluster :=
  let pod := privilegedPodSpec rs.privPodName nodeName podNamespace
  match createPod cluster pod with
  | .error e => (some e, cluster)
  | .ok cluster1 =>
    if watchEvents.any (fun p => p.phase = "Running") then (none, cluster1)
    else
      let p := (clusterGet cluster1 podNamespace rs.privPodName).getD zeroPod
      (some ("privileged pod " ++ p.name ++ " is not running after " ++
        toString privPodTimeout ++ " seconds, it is currently in " ++ p.phase ++ " phase"),
        cluster1)

/-- Result of the inline container-ID detection loop in
`handleActiveStatus` (execute.go): a non-empty stripped identifier, the
no-match outcome (`containerID` still `""` after the loop), or a Go
runtime panic from slicing `ContainerID[9:]` when the identifier is
shorter than the assumed 9-byte `docker://` prefix. -/
inductive ContainerIDResult where
  | found (containerID : String)
  | notFound
  | panicked
deriving Repr, DecidableEq

/-- The loop body: every status entry whose name matches the
execute-container annotation overwrites `containerID` with its
identifier minus the first 9 bytes (a Go panic if the identifier is
shorter); the loop does not break on a match. -/
def detectContainerIDLoop : List ContainerStatus → String → String → ContainerIDResult
  | [], _, containerID =>
    if containerID = "" then .notFound else .found containerID
  | s :: rest, target, containerID =>
    if s.name = target then
      if 9 ≤ s.containerID.length then detectContainerIDLoop rest target (s.containerID.drop 9)
      else .panicked
    else detectContainerIDLoop rest target containerID

/-- The container-ID detection of `handleActiveStatus` (execute.go,
the `for _, p := range newPodResource.Status.ContainerStatuses` loop):
it scans only the regular container statuses. -/
def detectContainerID (statuses : List ContainerStatus) (target : String) : ContainerIDResult :=
  detectContainerIDLoop statuses target ""

/-- Go slice expression `s[low:high]` on a string: defined (as the
designated substring) only when `0 ≤ low ≤ high ≤ len(s)`, a runtime
panic otherwise (`none`).  Character positions model the byte
positions of the ASCII outputs involved. -/
def goStringSlice (s : String) (low high : Int) : Option String :=
  if 0 ≤ low ∧ low ≤ high ∧ high ≤ (s.length : Int) then
    some (String.mk ((s.toList.take high.toNat).drop low.toNat))
  else none

/-- The post-processing step of `getPID` (remote_command.go):
`pid = pid[1 : len(pid)-2]`. -/
def getPIDPostProcess (pid : String) : Option String :=
  goStringSlice pid 1 ((pid.length : Int) - 2)

/-- Transport outcomes of the two `execCommandOnPod` calls a request
makes inside the privileged pod: the docker-inspect call of `getPID`
and the nsenter call of `executeNsenterCommand`.  An `Except.error`
carries the already-formatted `execCommandOnPod` failure. -/
structure ExecOracle where
  inspectResult : Except String String
  nsenterResult : Except String String
deriving Repr

/-- Outcome of a remote execution step: captured stdout, a Go error,
or a Go runtime panic. -/
inductive ExecResult where
  | out (stdout : String)
  | failed (msg : String)
  | panicked
deriving Repr, DecidableEq

/-- Go `fmt` `%v` rendering of a `[]string`, as it appears inside
`execCommandOnPod` error messages. -/
def goFmtStringSliceV (l : List String) : String :=
  "[" ++ String.intercalate " " l ++ "]"

/-- `execCommandOnPod` (execute_command.go): run the command vector in
the privileged pod; stderr is logged, a transport failure is wrapped
with the command vector. -/
def execCommandOnPod (outcome : Except String String) (command : List String) :
    Except String String :=
  match outcome with
  | .error e => .error ("command " ++ goFmtStringSliceV command ++ " failed: " ++ e)
  | .ok stdout => .ok stdout

/-- `getPID` (remote_command.go): run the docker-inspect command for
the container ID, wrap its failure with container and ID, then strip
the quoting artifacts with `pid[1 : len(pid)-2]` (a Go panic when the
output is shorter than 3 bytes). -/
def getPID (oracle : ExecOracle) (container containerID : String) : ExecResult :=
  match oracle.inspectResult with
  | .error e => .failed ("unable to retrieve PID for container " ++ container ++
      " with container ID " ++ containerID ++ ": " ++ e)
  | .ok pid =>
    match getPIDPostProcess pid with
    | none => .panicked
    | some p => .out p

/-- The fixed namespace-entry command vector built by
`executeNsenterCommand` (remote_command.go): nsenter targeting the
resolved PID and the IPC, UTS, network and PID namespaces, followed by
the user's tokens. -/
def nsenterCommandToExecute (pid : String) (command : List String) : List String :=
  ["nsenter", "--target", pid, "--ipc", "--uts", "--net", "--pid"] ++ command

/-- `executeNsenterCommand` (remote_command.go): resolve the PID
(wrapping its failure), then hand the nsenter vector to
`execCommandOnPod`. -/
def executeNsenterCommand (oracle : ExecOracle) (container containerID : String)
    (command : List String) : ExecResult :=
  match getPID oracle container containerID with
  | .failed e => .failed ("unable to execute command: " ++ e)
  | .panicked => .panicked
  | .out pid =>
    match execCommandOnPod oracle.nsenterResult (nsenterCommandToExecute pid command) with
    | .error e => .failed e
    | .ok stdout => .out stdout

/-- `strings.Fields` on the execute-action annotation value. -/
def goFields (s : String) : List String :=
  (s.split Char.isWhitespace).filter (fun t => t ≠ "")

/-- Outcome of one handler or of `Process`: success, a returned Go
error, or a propagated Go runtime panic. -/
inductive StepOutcome where
  | ok
  | fail (msg : String)
  | panicked
deriving Repr, DecidableEq

/-- A handler outcome together with the cluster state and the target
pod object (mutated in place through its pointer) it leaves behind. -/
structure StateResult where
  outcome : StepOutcome
  cluster : Cluster
  pod : Pod
deriving Repr, DecidableEq

/-- `handleActiveStatus` (execute.go): write `in-progress`, detect the
target container's runtime ID from the regular container statuses,
detect the node, provision the privileged pod, run the action through
nsenter and finally write `done`; every step short-circuits the
handler with its error.  The retry-detection branch only logs. -/
def handleActiveStatus (cfg : cmdArgs) (cluster : Cluster) (oldPodResource newPodResource : Pod)
    (rs : requestSpec) (watchEvents : List Pod) (oracle : ExecOracle) : StateResult :=
  let r1 := updatePrivilegedCommandExecutorAnnotations cluster newPodResource.podNamespace
    newPodResource StatusInProgress
  match r1.err with
  | some e =>
    { outcome := .fail ("failed to update " ++ AnnotationExecuteStatus ++ " annotation to " ++
        StatusInProgress ++ ": " ++ e), cluster := r1.cluster, pod := r1.pod }
  | none =>
    let targetContainer := goGet r1.pod.annotations AnnotationExecuteContainer
    match detectContainerID r1.pod.containerStatuses targetContainer with
    | .panicked => { outcome := .panicked, cluster := r1.cluster, pod := r1.pod }
    | .notFound =>
      { outcome := .fail ("no matching container ID for container " ++ targetContainer ++
          " on pod " ++ r1.pod.name ++ " under namespace " ++ r1.pod.podNamespace),
        cluster := r1.cluster, pod := r1.pod }
    | .found containerID =>
      match getNodeName r1.pod with
      | .error e =>
        { outcome := .fail ("failed to detect target node: %s" ++ e),
          cluster := r1.cluster, pod := r1.pod }
      | .ok nodeName =>
        match createPrivilegedPod r1.cluster cfg.podNamespace nodeName rs
            cfg.privPodTimeout watchEvents with
        | (some e, c2) => { outcome := .fail e, cluster := c2, pod := r1.pod }
        | (none, c2) =>
          let actionToExec := goFields (goGet r1.pod.annotations AnnotationExecuteAction)
          match executeNsenterCommand oracle targetContainer containerID actionToExec with
          | .panicked => { outcome := .panicked, cluster := c2, pod := r1.pod }
          | .failed e =>
            { outcome := .fail ("failed to execute command: " ++ e),
              cluster := c2, pod := r1.pod }
          | .out _ =>
            let r2 := updatePrivilegedCommandExecutorAnnotations c2 r1.pod.podNamespace
              r1.pod StatusDone
            match r2.err with
            | some e =>
              { outcome := .fail ("failed to update " ++ AnnotationExecuteStatus ++
                  " annotation to " ++ StatusDone ++ ": " ++ e),
                cluster := r2.cluster, pod := r2.pod }
            | none => { outcome := .ok, cluster := r2.cluster, pod := r2.pod }

/-- `handleDoneStatus` (execute.go): after the fixed grace sleep (no
state effect), delete the privileged pod, then delete the three
protocol annotations; the pod-deletion error is returned unchanged,
the annotation-deletion error is wrapped. -/
def handleDoneStatus (cfg : cmdArgs) (cluster : Cluster) (oldPodResource newPodResource : Pod)
    (rs : requestSpec) : StateResult :=
  match deletePod cluster cfg.podNamespace rs with
  | (some e, c1) => { outcome := .fail e, cluster := c1, pod := newPodResource }
  | (none, c1) =>
    let r := deletePrivilegedCommandExecutorAnnotations c1 newPodResource.podNamespace
      newPodResource
    match r.err with
    | some e =>
      { outcome := .fail ("failed to delete annotations " ++ AnnotationExecuteStatus ++ ", " ++
          AnnotationExecuteContainer ++ " and " ++ AnnotationExecuteAction ++ ": " ++ e),
        cluster := r.cluster, pod := r.pod }
    | none => { outcome := .ok, cluster := r.cluster, pod := r.pod }

/-- `Process` (execute.go): dispatch on the current status annotation;
`active` and `done` invoke their handlers, wrapping a handler error
with the literal transition context; any other status is a no-op. -/
def Process (cfg : cmdArgs) (cluster : Cluster) (oldPodResource newPodResource : Pod)
    (rs : requestSpec) (watchEvents : List Pod) (oracle : ExecOracle) : StateResult :=
  if goGet newPodResource.annotations AnnotationExecuteStatus = StatusActive then
    let r := handleActiveStatus cfg cluster oldPodResource newPodResource rs watchEvents oracle
    match r.outcome with
    | .fail e =>
      { outcome := .fail ("unable to act upon annotation " ++ AnnotationExecuteStatus ++
          " change to " ++ StatusActive ++ ": " ++ e), cluster := r.cluster, pod := r.pod }
    | o => { outcome := o, cluster := r.cluster, pod := r.pod }
  else if goGet newPodResource.annotations AnnotationExecuteStatus = StatusDone then
    let r := handleDoneStatus cfg cluster oldPodResource newPodResource rs
    match r.outcome with
    | .fail e =>
      { outcome := .fail ("unable to act upon annotation " ++ AnnotationExecuteStatus ++
          " change to " ++ StatusDone ++ ": " ++ e), cluster := r.cluster, pod := r.pod }
    | o => { outcome := o, cluster := r.cluster, pod := r.pod }
  else { outcome := .ok, cluster := cluster, pod := newPodResource }

/-- The acceptance filter of the dispatcher callback `handleUpdate`
(privilege_pod.go): the new pod's annotation map is non-nil and the
three protocol keys are simultaneously non-empty. -/
def handleUpdateQualifies (newPodResource : Pod) : Prop :=
  newPodResource.annotations ≠ none ∧
  goGet newPodResource.annotations AnnotationExecuteContainer ≠ "" ∧
  goGet newPodResource.annotations AnnotationExecuteAction ≠ "" ∧
  goGet newPodResource.annotations AnnotationExecuteStatus ≠ ""

instance (p : Pod) : Decidable (handleUpdateQualifies p) := by
  unfold handleUpdateQualifies; infer_instance

/-- How many times the `handleUpdate` callback (privilege_pod.go)
invokes the state machine `Process` for one pod-update event: when the
filter accepts, the callback ranges over the annotation keys and
invokes `Process` once for every key equal to the status key. -/
def handleUpdateProcessInvocations (newPodResource : Pod) : Nat :=
  if handleUpdateQualifies newPodResource then
    ((newPodResource.annotations.getD []).filter
      (fun q => q.1 = AnnotationExecuteStatus)).length
  else 0

/-! ### Concrete scenario fixtures, mirroring the repository's test data -/

/-- The flag values the repository's tests run with: a 3-second
running-pod timeout and `default` as the privileged-pod namespace. -/
def testCmdArgs : cmdArgs :=
  { privPodTimeout := 3, podNamespace := "default", image := "image",
    serviceaccount := "kube-priv-pod" }

/-- The request identity used throughout the end-to-end scenarios. -/
def testRequestSpec : requestSpec :=
  { privPodName := "priv-test-pod-target-container", reqID := "req-1" }

/-- A transport oracle whose calls all succeed with empty output; no
scenario below reaches the remote-execution step. -/
def trivialExecOracle : ExecOracle :=
  { inspectResult := .ok "", nsenterResult := .ok "" }

/-- The target pod of the end-to-end scenario (execute_test.go's
`targetPodSpecWithNode`), annotated with the three protocol keys. -/
def targetPodSpecWithNode : Pod :=
  { name := "test-pod", podNamespace := "default",
    annotations := some [(AnnotationExecuteStatus, StatusActive),
      (AnnotationExecuteContainer, "target-container"),
      (AnnotationExecuteAction, "target-action")],
    nodeName := "targetNode",
    containerStatuses := [{ name := "target-container", containerID := "docker://containerid" }],
    initContainerStatuses := [],
    phase := "" }

/-- A pod whose only status entry naming the target container is an
init-container status entry. -/
def initOnlyStatusPod : Pod :=
  { targetPodSpecWithNode with
    containerStatuses := [],
    initContainerStatuses :=
      [{ name := "target-container", containerID := "docker://containerid" }] }

/-- A pod whose matching container status entry carries an unpopulated
(empty) ContainerID. -/
def emptyContainerIDPod : Pod :=
  { targetPodSpecWithNode with
    containerStatuses := [{ name := "target-container", containerID := "" }] }

/-- A pod carrying one ordinary annotation, for the deletion and upsert
scenarios. -/
def deletionTargetPod : Pod :=
  { targetPodSpecWithNode with
    annotations := some [("init-annotation1", "init-value1")] }

/-- A pod whose annotation key is present but mapped to the empty
string. -/
def emptyValuedPod : Pod :=
  { targetPodSpecWithNode with
    annotations := some [("init-annotation1", "")] }

/-! ### Lemmas about the Go map model -/

theorem goLookup_map_replace_ne (m : List (String × String)) (k v k' : String) (h : k' ≠ k) :
    goLookup (m.map (fun p => if p.1 = k then (k, v) else p)) k' = goLookup m k' := by
  induction m with
  | nil => rfl
  | cons p rest ih =>
    by_cases hp : p.1 = k
    · simp [goLookup, hp, Ne.symm h, ih]
    · by_cases hp' : p.1 = k'
      · simp [goLookup, hp, hp', h]
      · simp [goLookup, hp, hp', ih]

theorem goLookup_map_replace_self (m : List (String × String)) (k v : String)
    (h : hasKeyList m k = true) :
    goLookup (m.map (fun p => if p.1 = k then (k, v) else p)) k = v := by
  induction m with
  | nil => simp [hasKeyList] at h
  | cons p rest ih =>
    by_cases hp : p.1 = k
    · simp [goLookup, hp]
    · have h' : hasKeyList rest k = true := by simpa [hasKeyList, hp] using h
      simp [goLookup, hp, ih h']

theorem goLookup_append_single (m : List (String × String)) (k v k' : String)
    (h : hasKeyList m k = false) :
    goLookup (m ++ [(k, v)]) k' = if k' = k then v else goLookup m k' := by
  induction m with
  | nil =>
    by_cases hk : k' = k
    · simp [goLookup, hk]
    · simp [goLookup, Ne.symm hk, hk]
  | cons p rest ih =>
    have hp : p.1 ≠ k := by
      intro he
      simp [hasKeyList, he] at h
    have h' : hasKeyList rest k = false := by simpa [hasKeyList, hp] using h
    by_cases hp' : p.1 = k'
    · have : k' ≠ k := fun he => hp (hp'.trans he)
      simp [goLookup, hp', this]
    · simp [goLookup, hp', ih h']

theorem goLookup_goInsertList (m : List (String × String)) (k v k' : String) :
    goLookup (goInsertList m k v) k' = if k' = k then v else goLookup m k' := by
  unfold goInsertList
  by_cases hk : hasKeyList m k
  · rw [if_pos hk]
    by_cases he : k' = k
    · subst he
      simp [goLookup_map_replace_self m k' v hk]
    · simp [goLookup_map_replace_ne m k v k' he, he]
  · rw [if_neg hk]
    exact goLookup_append_single m k v k' (by simpa using hk)

theorem hasKeyList_map_replace (m : List (String × String)) (k v k' : String) :
    hasKeyList (m.map (fun p => if p.1 = k then (k, v) else p)) k' = hasKeyList m k' := by
  induction m with
  | nil => rfl
  | cons p rest ih =>
    by_cases hp : p.1 = k
    · by_cases hp' : p.1 = k'
      · simp [hasKeyList, hp, hp ▸ hp']
      · simp [hasKeyList, hp, hp ▸ hp', hp', ih]
    · simp [hasKeyList, hp, ih]

theorem hasKeyList_append_single (m : List (String × String)) (k v k' : String) :
    hasKeyList (m ++ [(k, v)]) k' = (hasKeyList m k' || decide (k = k')) := by
  induction m with
  | nil => simp [hasKeyList]
  | cons p rest ih =>
    by_cases hp : p.1 = k'
    · simp [hasKeyList, hp]
    · simp [hasKeyList, hp, ih]

theorem hasKeyList_goInsertList (m : List (String × String)) (k v k' : String) :
    hasKeyList (goInsertList m k v) k' = (decide (k' = k) || hasKeyList m k') := by
  unfold goInsertList
  by_cases hk : hasKeyList m k
  · rw [if_pos hk, hasKeyList_map_replace]
    by_cases he : k' = k
    · simp [he, hk]
    · simp [he]
  · rw [if_neg hk, hasKeyList_append_single]
    by_cases he : k' = k
    · simp [he]
    · simp [he, Ne.symm he]

theorem goLookup_goDeleteList (m : List (String × String)) (k k' : String) :
    goLookup (goDeleteList m k) k' = if k' = k then "" else goLookup m k' := by
  induction m with
  | nil => by_cases he : k' = k <;> simp [goDeleteList, goLookup, he]
  | cons p rest ih =>
    by_cases hp : p.1 = k
    · have hstep : goDeleteList (p :: rest) k = goDeleteList rest k := by
        simp [goDeleteList, List.filter, hp]
      rw [hstep, ih]
      by_cases he : k' = k
      · simp [he]
      · have hp' : ¬p.1 = k' := fun hh => he ((hp.symm.trans hh).symm)
        simp [goLookup, hp', he]
    · have hstep : goDeleteList (p :: rest) k = p :: goDeleteList rest k := by
        simp [goDeleteList, List.filter, hp]
      rw [hstep]
      by_cases hp' : p.1 = k'
      · have he : ¬k' = k := fun hh => hp (hp'.trans hh)
        simp [goLookup, hp', he]
      · simp [goLookup, hp', ih]

theorem goGet_getD (ann : AnnMap) (k : String) : goLookup (ann.getD []) k = goGet ann k := by
  cases ann <;> rfl

theorem goGet_delete (ann : AnnMap) (k k' : String) :
    goGet (ann.map (fun m => goDeleteList m k)) k' = if k' = k then "" else goGet ann k' := by
  cases ann with
  | none => by_cases he : k' = k <;> simp [goGet, he]
  | some m => simpa [goGet] using goLookup_goDeleteList m k k'

theorem applyAnnotationDeletionLoop_err (keys : List String) (ann : AnnMap)
    (h : ∃ k, k ∈ keys ∧ goGet ann k = "") :
    ∃ k', k' ∈ keys ∧ (applyAnnotationDeletionLoop keys ann).1 =
      some ("annotation " ++ k' ++ " to be deleted does not exist") := by
  induction keys generalizing ann with
  | nil => obtain ⟨k, hk, _⟩ := h; cases hk
  | cons k0 rest ih =>
    by_cases h0 : goGet ann k0 = ""
    · exact ⟨k0, List.mem_cons_self _ _, by simp [applyAnnotationDeletionLoop, h0]⟩
    · obtain ⟨k, hk, hempty⟩ := h
      rcases List.mem_cons.mp hk with he | hmem
      · exact absurd (he ▸ hempty) h0
      · have hrec := ih (ann.map (fun m => goDeleteList m k0)) ?_
        · obtain ⟨k', hk', heq⟩ := hrec
          refine ⟨k', List.mem_cons_of_mem _ hk', ?_⟩
          simpa [applyAnnotationDeletionLoop, h0] using heq
        · refine ⟨k, hmem, ?_⟩
          rw [goGet_delete]
          by_cases he2 : k = k0
          · simp [he2]
          · simp [he2, hempty]

theorem applyAnnotationDeletionLoop_preserved (keys : List String) (ann : AnnMap) (k : String)
    (h : k ∉ keys) :
    goGet (applyAnnotationDeletionLoop keys ann).2 k = goGet ann k := by
  induction keys generalizing ann with
  | nil => rfl
  | cons k0 rest ih =>
    have hne : k ≠ k0 := fun he => h (by rw [he]; exact List.mem_cons_self _ _)
    have hrest : k ∉ rest := fun hm => h (List.mem_cons_of_mem _ hm)
    by_cases h0 : goGet ann k0 = ""
    · simp [applyAnnotationDeletionLoop, h0]
    · have hstep : applyAnnotationDeletionLoop (k0 :: rest) ann =
        applyAnnotationDeletionLoop rest (ann.map (fun m => goDeleteList m k0)) := by
        simp [applyAnnotationDeletionLoop, h0]
      rw [hstep, ih _ hrest, goGet_delete]
      simp [hne]

theorem filter_key_length_pos (m : List (String × String)) (k : String)
    (h : goLookup m k ≠ "") :
    0 < (m.filter (fun q => q.1 = k)).length := by
  induction m with
  | nil => simp [goLookup] at h
  | cons p rest ih =>
    by_cases hp : p.1 = k
    · simp [List.filter, hp]
    · have h' : goLookup rest k ≠ "" := by simpa [goLookup, hp] using h
      simpa [List.filter, hp] using ih h'

theorem filter_key_nil_of_not_mem (m : List (String × String)) (k : String)
    (h : k ∉ m.map Prod.fst) :
    m.filter (fun q => q.1 = k) = [] := by
  induction m with
  | nil => rfl
  | cons p rest ih =>
    have hp : ¬p.1 = k := fun he => h (List.mem_map.mpr ⟨p, List.mem_cons_self _ _, he⟩)
    have h' : k ∉ rest.map Prod.fst := fun hm => h (by rw [List.map_cons]; exact List.mem_cons_of_mem _ hm)
    simp [List.filter, hp, ih h']

theorem filter_key_length_le_one (m : List (String × String)) (k : String)
    (h : (m.map Prod.fst).Nodup) :
    (m.filter (fun q => q.1 = k)).length ≤ 1 := by
  induction m with
  | nil => simp
  | cons p rest ih =>
    rw [List.map_cons, List.nodup_cons] at h
    by_cases hp : p.1 = k
    · have hnil : rest.filter (fun q => q.1 = k) = [] :=
        filter_key_nil_of_not_mem rest k (hp ▸ h.1)
      simp [List.filter, hp, hnil]
    · simpa [List.filter, hp] using ih h.2

theorem detectContainerIDLoop_no_match (statuses : List ContainerStatus) (target acc : String)
    (h : ∀ s ∈ statuses, s.name ≠ target) :
    detectContainerIDLoop statuses target acc =
      if acc = "" then ContainerIDResult.notFound else ContainerIDResult.found acc := by
  induction statuses with
  | nil => rfl
  | cons s rest ih =>
    have hs : ¬s.name = target := h s (List.mem_cons_self _ _)
    have h' : ∀ t ∈ rest, t.name ≠ target := fun t ht => h t (List.mem_cons_of_mem _ ht)
    simpa [detectContainerIDLoop, hs] using ih h'

theorem list_take_drop_middle (l : List Char) (h : 3 ≤ l.length) :
    (l.take (l.length - 2)).drop 1 = ((l.drop 1).dropLast).dropLast := by
  rw [List.drop_take]
  rw [List.dropLast_eq_take, List.dropLast_eq_take, List.take_take, List.length_take,
    List.length_drop]
  congr 1
  omega

theorem hasKey_getD (ann : AnnMap) (k : String) : hasKeyList (ann.getD []) k = hasKey ann k := by
  cases ann <;> rfl

theorem applyAnnotationUpdateOnPod_podAnnotations (cluster : Cluster) (podNamespace : String)
    (addOrUpdateAnnotations : List (String × String)) (newPodResource : Pod) :
    (applyAnnotationUpdateOnPod cluster podNamespace addOrUpdateAnnotations
        newPodResource).pod.annotations =
      some (addOrUpdateAnnotations.foldl (fun m kv => goInsertList m kv.1 kv.2)
        (newPodResource.annotations.getD [])) := by
  simp only [applyAnnotationUpdateOnPod]
  split <;> rfl

/-! ### Claim theorems -/

set_option maxRecDepth 100000 in
/-- Claim C1: in the literal end-to-end scenario (target pod `test-pod`
in namespace `default` on node `targetNode`, container
`target-container` with runtime ID `docker://containerid`, annotations
status=active, container=target-container, action=target-action, a
3-second pod-running timeout and a privileged pod that never reaches
Running), `Process` returns exactly the stated error, and afterwards a
pod named `priv-test-pod-target-container` exists in the privileged-pod
namespace with node name `targetNode`. -/
theorem c1_process_timeout_scenario :
    (Process testCmdArgs [targetPodSpecWithNode] targetPodSpecWithNode targetPodSpecWithNode
        testRequestSpec [] trivialExecOracle).outcome =
      StepOutcome.fail ("unable to act upon annotation privileged-command-status change to active: privileged pod priv-test-pod-target-container is not running after 3 seconds, it is currently in  phase") ∧
    (clusterGet (Process testCmdArgs [targetPodSpecWithNode] targetPodSpecWithNode
        targetPodSpecWithNode testRequestSpec [] trivialExecOracle).cluster
        testCmdArgs.podNamespace "priv-test-pod-target-container").map Pod.nodeName =
      some "targetNode" := by
  constructor <;> decide

/-- Claim C2 counterexample: on a pod whose only status entry naming the
target container is an init-container status entry, runtime-ID
resolution in the active-handler does not succeed with the stripped
identifier; the handler fails with the no-matching-container error. -/
theorem c2_counterexample :
    (handleActiveStatus testCmdArgs [initOnlyStatusPod] initOnlyStatusPod initOnlyStatusPod
        testRequestSpec [] trivialExecOracle).outcome =
      StepOutcome.fail "no matching container ID for container target-container on pod test-pod under namespace default" := by
  decide

/-- Claim C2 (amended): container runtime-ID detection scans only the
regular container status entries; whenever no regular entry's name
matches the execute-container value, detection reports no match, even
when an init-container status entry does match. -/
theorem c2_resolution_ignores_init_statuses (pod : Pod) (target : String)
    (hreg : ∀ s ∈ pod.containerStatuses, s.name ≠ target)
    (hinit : ∃ s ∈ pod.initContainerStatuses, s.name = target) :
    detectContainerID pod.containerStatuses target = ContainerIDResult.notFound := by
  simpa [detectContainerID] using
    detectContainerIDLoop_no_match pod.containerStatuses target "" hreg

theorem c2_amended_witness :
    ((∀ s ∈ initOnlyStatusPod.containerStatuses, s.name ≠ "target-container") ∧
      (∃ s ∈ initOnlyStatusPod.initContainerStatuses, s.name = "target-container")) ∧
    detectContainerID initOnlyStatusPod.containerStatuses "target-container" =
      ContainerIDResult.notFound :=
  ⟨⟨by decide, by decide⟩,
    c2_resolution_ignores_init_statuses initOnlyStatusPod "target-container"
      (by decide) (by decide)⟩

/-- Claim C3 (behaviour at the failing input): on a pod whose matching
container status entry has an empty ContainerID, the active-handler
does not terminate with a NotFound error; the prefix strip
`ContainerID[9:]` indexes out of range and the handler hits a Go
runtime panic. -/
theorem c3_empty_container_id_panics :
    (handleActiveStatus testCmdArgs [emptyContainerIDPod] emptyContainerIDPod
        emptyContainerIDPod testRequestSpec [] trivialExecOracle).outcome =
      StepOutcome.panicked := by
  decide

/-- Claim C4 counterexample: deleting `init-annotation1` and `absent-key`
from a pod that carries only `init-annotation1` fails with the
missing-annotation error, yet `init-annotation1`, present with value
`init-value1` before the call, has been removed from the pod object:
the failed deletion is not all-or-nothing on the pod object. -/
theorem c4_counterexample :
    (applyAnnotationDeletionOnPod [] "default" ["init-annotation1", "absent-key"]
        deletionTargetPod).err = some "annotation absent-key to be deleted does not exist" ∧
    goGet deletionTargetPod.annotations "init-annotation1" = "init-value1" ∧
    goGet (applyAnnotationDeletionOnPod [] "default" ["init-annotation1", "absent-key"]
        deletionTargetPod).pod.annotations "init-annotation1" = "" := by
  refine ⟨by decide, by decide, by decide⟩

/-- Claim C4 (amended): if any key in the deletion list is not currently
present (value `""`), the multi-key deletion fails with the
missing-annotation error and submits no patch, so the cluster is
unchanged; on the in-memory pod object every annotation whose key is
not in the deletion list keeps its value, but keys earlier in the list
than the first missing key have already been removed. -/
theorem c4_failed_deletion_atomic_on_cluster (cluster : Cluster) (podNamespace : String)
    (keys : List String) (pod : Pod)
    (h : ∃ k, k ∈ keys ∧ goGet pod.annotations k = "") :
    (∃ k', k' ∈ keys ∧ (applyAnnotationDeletionOnPod cluster podNamespace keys pod).err =
      some ("annotation " ++ k' ++ " to be deleted does not exist")) ∧
    (applyAnnotationDeletionOnPod cluster podNamespace keys pod).cluster = cluster ∧
    (∀ k, k ∉ keys →
      goGet (applyAnnotationDeletionOnPod cluster podNamespace keys pod).pod.annotations k =
        goGet pod.annotations k) := by
  obtain ⟨k', hk', herr⟩ := applyAnnotationDeletionLoop_err keys pod.annotations h
  refine ⟨⟨k', hk', ?_⟩, ?_, ?_⟩
  · simp [applyAnnotationDeletionOnPod, herr]
  · simp [applyAnnotationDeletionOnPod, herr]
  · intro k hk
    simp only [applyAnnotationDeletionOnPod, herr]
    simpa using applyAnnotationDeletionLoop_preserved keys pod.annotations k hk

theorem c4_amended_witness :
    (∃ k, k ∈ ["init-annotation1", "absent-key"] ∧
      goGet deletionTargetPod.annotations k = "") ∧
    (applyAnnotationDeletionOnPod [] "default" ["init-annotation1", "absent-key"]
        deletionTargetPod).cluster = ([] : Cluster) :=
  ⟨⟨"absent-key", by decide, by decide⟩,
    (c4_failed_deletion_atomic_on_cluster [] "default" ["init-annotation1", "absent-key"]
      deletionTargetPod ⟨"absent-key", by decide, by decide⟩).2.1⟩

/-- Claim C5 counterexample: with user token list `["--mount"]` the
command vector handed to the remote exec primitive does contain a
`--mount` token, so the claim's "no `--mount` token present", stated
for every user-supplied token list, fails. -/
theorem c5_counterexample : "--mount" ∈ nsenterCommandToExecute "1" ["--mount"] := by
  decide

/-- Claim C5 (amended): the command vector is exactly `nsenter --target
pid --ipc --uts --net --pid` followed by the user's tokens in their
original order, and the fixed prefix introduces no `--mount` token: the
vector contains `--mount` only when it is the resolved PID string or one
of the user's own tokens. -/
theorem c5_nsenter_command_vector (pid : String) (command : List String) :
    nsenterCommandToExecute pid command =
      ["nsenter", "--target", pid, "--ipc", "--uts", "--net", "--pid"] ++ command ∧
    ("--mount" ∈ nsenterCommandToExecute pid command ↔
      "--mount" = pid ∨ "--mount" ∈ command) := by
  refine ⟨rfl, ?_⟩
  have h1 : ("--mount" : String) ≠ "nsenter" := by decide
  have h2 : ("--mount" : String) ≠ "--target" := by decide
  have h3 : ("--mount" : String) ≠ "--ipc" := by decide
  have h4 : ("--mount" : String) ≠ "--uts" := by decide
  have h5 : ("--mount" : String) ≠ "--net" := by decide
  have h6 : ("--mount" : String) ≠ "--pid" := by decide
  simp [nsenterCommandToExecute, h1, h2, h3, h4, h5, h6]

/-- Claim C6: the dispatcher callback invokes the state machine exactly
when the new pod's annotation map is non-nil and the three protocol
keys are simultaneously non-empty, and for such a qualifying update it
invokes the state machine exactly once (the keys of a Go map are
unique, hence the key-uniqueness hypothesis). -/
theorem c6_dispatcher_invokes_once (newPodResource : Pod)
    (hnodup : ((newPodResource.annotations.getD []).map Prod.fst).Nodup) :
    (0 < handleUpdateProcessInvocations newPodResource ↔
      handleUpdateQualifies newPodResource) ∧
    (handleUpdateQualifies newPodResource → handleUpdateProcessInvocations newPodResource = 1) := by
  by_cases hq : handleUpdateQualifies newPodResource
  · have hstatus : goGet newPodResource.annotations AnnotationExecuteStatus ≠ "" := hq.2.2.2
    have hlookup : goLookup (newPodResource.annotations.getD []) AnnotationExecuteStatus ≠ "" := by
      rw [goGet_getD]; exact hstatus
    have hpos := filter_key_length_pos _ _ hlookup
    have hle := filter_key_length_le_one _ AnnotationExecuteStatus hnodup
    have hone : ((newPodResource.annotations.getD []).filter
        (fun q => q.1 = AnnotationExecuteStatus)).length = 1 := by omega
    constructor
    · constructor
      · exact fun _ => hq
      · intro _
        simp [handleUpdateProcessInvocations, hq, hone]
    · intro _
      simp [handleUpdateProcessInvocations, hq, hone]
  · constructor
    · simp [handleUpdateProcessInvocations, hq]
    · exact fun h => absurd h hq

theorem c6_witness :
    ((targetPodSpecWithNode.annotations.getD []).map Prod.fst).Nodup ∧
    handleUpdateProcessInvocations targetPodSpecWithNode = 1 :=
  ⟨by decide, (c6_dispatcher_invokes_once targetPodSpecWithNode (by decide)).2 (by decide)⟩

/-- Claim C7: after a successful upsert of status=active, container=c,
action=a, the pod's annotation map is exactly the previous map extended
with those three pairs: the three protocol keys map to the upserted
values, every other key keeps its previous value, and the key set is
the previous key set plus exactly the three protocol keys. -/
theorem c7_upsert_roundtrip (cluster : Cluster) (podNamespace : String) (pod : Pod)
    (c a k : String)
    (hsuccess : (applyAnnotationUpdateOnPod cluster podNamespace
      [(AnnotationExecuteStatus, StatusActive), (AnnotationExecuteContainer, c),
       (AnnotationExecuteAction, a)] pod).err = none) :
    goGet (applyAnnotationUpdateOnPod cluster podNamespace
        [(AnnotationExecuteStatus, StatusActive), (AnnotationExecuteContainer, c),
         (AnnotationExecuteAction, a)] pod).pod.annotations k =
      (if k = AnnotationExecuteStatus then StatusActive
       else if k = AnnotationExecuteContainer then c
       else if k = AnnotationExecuteAction then a
       else goGet pod.annotations k) ∧
    (hasKey (applyAnnotationUpdateOnPod cluster podNamespace
        [(AnnotationExecuteStatus, StatusActive), (AnnotationExecuteContainer, c),
         (AnnotationExecuteAction, a)] pod).pod.annotations k = true ↔
      (k = AnnotationExecuteStatus ∨ k = AnnotationExecuteContainer ∨
       k = AnnotationExecuteAction ∨ hasKey pod.annotations k = true)) := by
  have hSC : AnnotationExecuteStatus ≠ AnnotationExecuteContainer := by decide
  have hSA : AnnotationExecuteStatus ≠ AnnotationExecuteAction := by decide
  have hCA : AnnotationExecuteContainer ≠ AnnotationExecuteAction := by decide
  have hpod := applyAnnotationUpdateOnPod_podAnnotations cluster podNamespace
    [(AnnotationExecuteStatus, StatusActive), (AnnotationExecuteContainer, c),
     (AnnotationExecuteAction, a)] pod
  rw [hpod]
  simp only [List.foldl_cons, List.foldl_nil]
  constructor
  · simp only [goGet]
    rw [goLookup_goInsertList, goLookup_goInsertList, goLookup_goInsertList, goGet_getD]
    by_cases hS : k = AnnotationExecuteStatus
    · simp [hS, hSC, hSA, Ne.symm hSC, Ne.symm hSA]
    · by_cases hC : k = AnnotationExecuteContainer
      · simp [hC, hS, hCA, Ne.symm hCA, hSC, Ne.symm hSC]
      · by_cases hA : k = AnnotationExecuteAction
        · simp [hA, hS, hC, Ne.symm hSA, Ne.symm hCA]
        · simp [hS, hC, hA, goGet]
  · simp only [hasKey]
    rw [hasKeyList_goInsertList, hasKeyList_goInsertList, hasKeyList_goInsertList, hasKey_getD]
    simp only [Bool.or_eq_true, decide_eq_true_eq]
    tauto

theorem c7_witness :
    (applyAnnotationUpdateOnPod [deletionTargetPod] "default"
        [(AnnotationExecuteStatus, StatusActive), (AnnotationExecuteContainer, "target-container"),
         (AnnotationExecuteAction, "target-action")] deletionTargetPod).err = none ∧
    goGet (applyAnnotationUpdateOnPod [deletionTargetPod] "default"
        [(AnnotationExecuteStatus, StatusActive), (AnnotationExecuteContainer, "target-container"),
         (AnnotationExecuteAction, "target-action")] deletionTargetPod).pod.annotations
      "init-annotation1" =
      (if "init-annotation1" = AnnotationExecuteStatus then StatusActive
       else if "init-annotation1" = AnnotationExecuteContainer then "target-container"
       else if "init-annotation1" = AnnotationExecuteAction then "target-action"
       else goGet deletionTargetPod.annotations "init-annotation1") :=
  ⟨by decide, (c7_upsert_roundtrip [deletionTargetPod] "default" deletionTargetPod
      "target-container" "target-action" "init-annotation1" (by decide)).1⟩

/-- Claim C8: a key that is present in the pod's annotation map but
mapped to the empty string is treated exactly like an absent key: a
deletion list containing such a key makes the multi-key deletion fail
with the does-not-exist error even though the key exists in the map. -/
theorem c8_empty_value_treated_as_missing (cluster : Cluster) (podNamespace : String)
    (keys : List String) (pod : Pod) (k : String)
    (hmem : k ∈ keys) (hpresent : hasKey pod.annotations k = true)
    (hempty : goGet pod.annotations k = "") :
    ∃ k', k' ∈ keys ∧ (applyAnnotationDeletionOnPod cluster podNamespace keys pod).err =
      some ("annotation " ++ k' ++ " to be deleted does not exist") := by
  obtain ⟨k', hk', herr⟩ :=
    applyAnnotationDeletionLoop_err keys pod.annotations ⟨k, hmem, hempty⟩
  exact ⟨k', hk', by simp [applyAnnotationDeletionOnPod, herr]⟩

theorem c8_witness :
    ("init-annotation1" ∈ ["init-annotation1"] ∧
      hasKey emptyValuedPod.annotations "init-annotation1" = true ∧
      goGet emptyValuedPod.annotations "init-annotation1" = "") ∧
    (∃ k', k' ∈ ["init-annotation1"] ∧
      (applyAnnotationDeletionOnPod [] "default" ["init-annotation1"] emptyValuedPod).err =
        some ("annotation " ++ k' ++ " to be deleted does not exist")) :=
  ⟨⟨by decide, by decide, by decide⟩,
    c8_empty_value_treated_as_missing [] "default" ["init-annotation1"] emptyValuedPod
      "init-annotation1" (by decide) (by decide) (by decide)⟩

/-- Claim C9: the done-handler deletes the privileged pod before
touching any annotation: whenever that deletion fails (the pod is
absent), the handler returns the deletion error and leaves the target
pod's annotations, the pod object and the cluster completely
unchanged. -/
theorem c9_done_handler_delete_failure (cfg : cmdArgs) (cluster : Cluster)
    (oldPodResource newPodResource : Pod) (rs : requestSpec)
    (habsent : clusterGet cluster cfg.podNamespace rs.privPodName = none) :
    handleDoneStatus cfg cluster oldPodResource newPodResource rs =
      { outcome := StepOutcome.fail ("failed to delete pod " ++ rs.privPodName ++
          ": pods \"" ++ rs.privPodName ++ "\" not found"),
        cluster := cluster, pod := newPodResource } := by
  simp [handleDoneStatus, deletePod, habsent]

theorem c9_witness :
    clusterGet [] testCmdArgs.podNamespace testRequestSpec.privPodName = none ∧
    handleDoneStatus testCmdArgs [] targetPodSpecWithNode targetPodSpecWithNode testRequestSpec =
      { outcome := StepOutcome.fail ("failed to delete pod " ++ testRequestSpec.privPodName ++
          ": pods \"" ++ testRequestSpec.privPodName ++ "\" not found"),
        cluster := [], pod := targetPodSpecWithNode } :=
  ⟨by decide, c9_done_handler_delete_failure testCmdArgs [] targetPodSpecWithNode
    targetPodSpecWithNode testRequestSpec (by decide)⟩

/-- Claim C10: the PID post-processing `pid[1 : len(pid)-2]` removes
exactly the first character and the last two characters of the remote
inspection stdout and is defined precisely when that stdout has at
least 3 characters; for shorter outputs the slice bounds are out of
range (a Go runtime panic, modelled as `none`). -/
theorem c10_getpid_postprocess_definedness (pid : String) :
    getPIDPostProcess pid =
      if 3 ≤ pid.length then some (String.mk (((pid.toList.drop 1).dropLast).dropLast))
      else none := by
  unfold getPIDPostProcess goStringSlice
  have hlen : pid.toList.length = pid.length := rfl
  by_cases h : 3 ≤ pid.length
  · have hcond : (0:Int) ≤ 1 ∧ (1:Int) ≤ (pid.length:Int) - 2 ∧
        (pid.length:Int) - 2 ≤ (pid.length:Int) := ⟨by omega, by omega, by omega⟩
    rw [if_pos hcond, if_pos h]
    have htn : ((pid.length:Int) - 2).toNat = pid.length - 2 := by omega
    rw [htn]
    simp only [Int.toNat_one]
    have hmid := list_take_drop_middle pid.toList (by rw [hlen]; exact h)
    rw [hlen] at hmid
    exact congrArg (fun l => some (String.mk l)) hmid
  · have hcond : ¬((0:Int) ≤ 1 ∧ (1:Int) ≤ (pid.length:Int) - 2 ∧
        (pid.length:Int) - 2 ≤ (pid.length:Int)) := by
      intro hc
      omega
    rw [if_neg hcond, if_neg h]
